import Mathlib

/-!
Shallow embedding of the points-ledger operations of the loyalty-points
backend.  The repository carries two variants of the Express server:
`src/unnamed/part_003` and `src/backend/prisma/createsu.js`; where the two
differ, a definition is suffixed `_part003` or `_createsu` and its doc
comment cites the file and line range it is translated from.

Numbers: JavaScript numbers are modelled as `ℚ`; point balances and point
amounts (always produced through `Math.trunc` / `Math.round` in the source)
are `ℤ`.  Database rows affected by a handler are returned explicitly in a
result structure; on every failure path the handler returns the incoming
state unchanged, mirroring the fact that the source returns before touching
the store.
-/

namespace Loyalty

/-- JS `Math.trunc` on a rational: round toward zero. -/
def jsTrunc (q : ℚ) : ℤ := if 0 ≤ q then ⌊q⌋ else -⌊-q⌋

/-- JS `Math.round` on a rational: floor of `q + 1/2` (ties go up, as in JS). -/
def jsRound (q : ℚ) : ℤ := ⌊q + 1/2⌋

theorem jsTrunc_intCast (a : ℤ) : jsTrunc (a : ℚ) = a := by
  rcases le_or_lt 0 a with h | h
  · simp [jsTrunc, (by exact_mod_cast h : (0:ℚ) ≤ (a:ℚ))]
  · have h' : ¬ (0:ℚ) ≤ (a:ℚ) := by exact_mod_cast not_le.mpr h
    have hfl : ⌊-(a:ℚ)⌋ = -a := by
      rw [← Int.cast_neg, Int.floor_intCast]
    simp [jsTrunc, h', hfl]

theorem jsTrunc_natCast (a : ℕ) : jsTrunc (a : ℚ) = a := by
  simpa using jsTrunc_intCast (a : ℤ)

/-- HTTP outcome of a handler, restricted to the statuses the ledger
handlers actually produce (2xx collapsed to `ok`). -/
inductive HStatus where
  | ok
  | badRequest
  | forbidden
  | notFound
  | gone
deriving Repr, DecidableEq

/-- The role ladder of the backend (`ROLES` / `ORDER` in both variants). -/
inductive Role where
  | regular
  | cashier
  | manager
  | superuser
deriving Repr, DecidableEq

/-- `ORDER = { regular: 0, cashier: 1, manager: 2, superuser: 3 }`. -/
def ORDER : Role → ℕ
  | .regular => 0
  | .cashier => 1
  | .manager => 2
  | .superuser => 3

/-- The fields of a `User` row the ledger operations read or write. -/
structure User where
  id : ℕ
  points : ℤ
  verified : Bool
  suspicious : Bool
deriving Repr, DecidableEq

/-- A `Transaction` row.  `amount` is the signed integer point amount;
`earned` and `spent` are only set by the purchase handlers that store them. -/
structure TxRec where
  userId : ℕ
  type : String
  amount : ℤ
  relatedId : Option ℕ
  createdById : ℕ
  processedById : Option ℕ
  suspicious : Bool
  earned : Option ℤ
  spent : Option ℚ
deriving Repr, DecidableEq

/-- Result of `POST /users/:userId/transactions` (transfer): status, the
transaction rows created, and the resulting balances of sender and
recipient (`none` recipient when the lookup failed). -/
structure TransferResult where
  status : HStatus
  records : List TxRec
  senderPoints : ℤ
  recipientPoints : Option ℤ
deriving Repr, DecidableEq

/-- Transfer handler, `src/unnamed/part_003` lines 1512-1543 (identical in
`createsu.js` lines 2386-2457 up to response formatting).  `sender` is the
authenticated user (`req.auth.id` lookup always succeeds), `recipient` the
lookup result for `recipientId`. -/
def transferHandler (sender : User) (recipient : Option User) (recipientId : ℕ)
    (type : String) (amount : ℚ) : TransferResult :=
  let noChange (s : HStatus) : TransferResult :=
    { status := s, records := [], senderPoints := sender.points,
      recipientPoints := recipient.map (·.points) }
  if type ≠ "transfer" ∨ amount ≤ 0 then noChange .badRequest
  else if recipientId = sender.id then noChange .badRequest
  else
    match recipient with
    | none => noChange .notFound
    | some r =>
      if ¬ sender.verified then noChange .forbidden
      else if sender.points < jsTrunc amount then noChange .badRequest
      else
        { status := .ok
          records :=
            [ { userId := sender.id, type := "transfer", amount := -(jsTrunc amount),
                relatedId := some r.id, createdById := sender.id,
                processedById := some sender.id, suspicious := false,
                earned := none, spent := none },
              { userId := r.id, type := "transfer", amount := jsTrunc amount,
                relatedId := some sender.id, createdById := sender.id,
                processedById := some sender.id, suspicious := false,
                earned := none, spent := none } ]
          senderPoints := sender.points - jsTrunc amount
          recipientPoints := some (r.points + jsTrunc amount) }

/-- Result of `POST /users/me/transactions` (redemption request). -/
structure RedemptionResult where
  status : HStatus
  record : Option TxRec
  mePoints : ℤ
deriving Repr, DecidableEq

/-- Redemption-request handler, `src/unnamed/part_003` lines 1446-1468.
The created row stores the negated truncated amount and a `null`
`processedById`; the balance is not changed. -/
def redemptionRequestHandler (me : User) (type : String) (amount : ℚ) :
    RedemptionResult :=
  if type ≠ "redemption" ∨ amount ≤ 0 then ⟨.badRequest, none, me.points⟩
  else if ¬ me.verified then ⟨.forbidden, none, me.points⟩
  else if me.points < jsTrunc amount then ⟨.badRequest, none, me.points⟩
  else
    ⟨.ok,
     some { userId := me.id, type := "redemption", amount := -(jsTrunc amount),
            relatedId := none, createdById := me.id, processedById := none,
            suspicious := false, earned := none, spent := none },
     me.points⟩

/-- Result of `PATCH /transactions/:id/processed`. -/
structure ProcessResult where
  status : HStatus
  record : Option TxRec
  ownerPoints : ℤ
deriving Repr, DecidableEq

/-- Redemption-processing handler, `src/unnamed/part_003` lines 1493-1510.
`t` is the transaction lookup result, `owner` the row's user (user ids are
1-based, so the JS truthiness test on `processedById` is `isSome`). -/
def processRedemptionHandler (t : Option TxRec) (owner : User) (actorId : ℕ) :
    ProcessResult :=
  match t with
  | none => ⟨.notFound, none, owner.points⟩
  | some t =>
    if t.type ≠ "redemption" ∨ t.processedById.isSome then
      ⟨.badRequest, some t, owner.points⟩
    else if owner.points < -t.amount then ⟨.badRequest, some t, owner.points⟩
    else ⟨.ok, some { t with processedById := some actorId },
          owner.points - (-t.amount)⟩

/-- A transfer outcome that left the store untouched: no rows created and
both balances as before. -/
def TransferUnchanged (out : TransferResult) (sender : User)
    (recipient : Option User) : Prop :=
  out.records = [] ∧ out.senderPoints = sender.points ∧
    out.recipientPoints = recipient.map (·.points)

/-- C1: every successful debit initiated by (or owned by) a user leaves that
user's balance non-negative: a transfer checks `sender.points` against the
truncated amount before debiting, a redemption request rejects amounts whose
truncation exceeds the balance (and changes no balance), and redemption
processing checks the owner's balance against the redeemed amount before
debiting. -/
theorem transfer_redemption_balance_nonneg :
    (∀ (sender : User) (recipient : Option User) (rid : ℕ) (ty : String) (amount : ℚ),
        (transferHandler sender recipient rid ty amount).status = .ok →
        jsTrunc amount ≤ sender.points ∧
          0 ≤ (transferHandler sender recipient rid ty amount).senderPoints) ∧
    (∀ (me : User) (ty : String) (amount : ℚ),
        (redemptionRequestHandler me ty amount).status = .ok →
        jsTrunc amount ≤ me.points ∧
          (redemptionRequestHandler me ty amount).mePoints = me.points) ∧
    (∀ (t : Option TxRec) (owner : User) (actorId : ℕ),
        (processRedemptionHandler t owner actorId).status = .ok →
        0 ≤ (processRedemptionHandler t owner actorId).ownerPoints) := by
  refine ⟨?_, ?_, ?_⟩
  · intro sender recipient rid ty amount h
    cases recipient with
    | none =>
      exfalso
      simp only [transferHandler] at h
      split_ifs at h <;> simp_all
    | some r =>
      simp only [transferHandler] at h ⊢
      split_ifs at h ⊢ with h1 h2 h3 h4 <;> simp_all
  · intro me ty amount h
    simp only [redemptionRequestHandler] at h ⊢
    split_ifs at h ⊢ <;> simp_all
  · intro t owner actorId h
    cases t with
    | none => simp [processRedemptionHandler] at h
    | some t =>
      simp only [processRedemptionHandler] at h ⊢
      split_ifs at h ⊢ <;> simp_all
      omega

/-- Closed witness for `transfer_redemption_balance_nonneg` at concrete
inputs. -/
theorem transfer_redemption_balance_nonneg_witness :
    (jsTrunc 30 ≤ (⟨1, 100, true, false⟩ : User).points ∧
      0 ≤ (transferHandler ⟨1, 100, true, false⟩ (some ⟨2, 10, true, false⟩) 2
            "transfer" 30).senderPoints) ∧
    (jsTrunc 50 ≤ (⟨1, 50, true, false⟩ : User).points ∧
      (redemptionRequestHandler ⟨1, 50, true, false⟩ "redemption" 50).mePoints = 50) ∧
    0 ≤ (processRedemptionHandler
          (some ⟨1, "redemption", -50, none, 1, none, false, none, none⟩)
          ⟨1, 50, true, false⟩ 3).ownerPoints := by
  refine ⟨?_, ?_, ?_⟩
  · exact transfer_redemption_balance_nonneg.1 ⟨1, 100, true, false⟩
      (some ⟨2, 10, true, false⟩) 2 "transfer" 30
      (by norm_num [transferHandler, jsTrunc])
  · exact transfer_redemption_balance_nonneg.2.1 ⟨1, 50, true, false⟩
      "redemption" 50 (by norm_num [redemptionRequestHandler, jsTrunc])
  · exact transfer_redemption_balance_nonneg.2.2
      (some ⟨1, "redemption", -50, none, 1, none, false, none, none⟩)
      ⟨1, 50, true, false⟩ 3 (by norm_num [processRedemptionHandler])

/-- C5: a successful transfer of integer amount `a` creates exactly the
debit/credit pair, each row referencing the other's owner as `relatedId`,
debits the sender by `a`, credits the recipient by `a`, and the two balance
deltas sum to zero. -/
theorem transfer_pairing (sender r : User) (rid : ℕ) (a : ℤ)
    (h : (transferHandler sender (some r) rid "transfer" (a : ℚ)).status = .ok) :
    let out := transferHandler sender (some r) rid "transfer" (a : ℚ)
    out.records =
      [ { userId := sender.id, type := "transfer", amount := -a,
          relatedId := some r.id, createdById := sender.id,
          processedById := some sender.id, suspicious := false,
          earned := none, spent := none },
        { userId := r.id, type := "transfer", amount := a,
          relatedId := some sender.id, createdById := sender.id,
          processedById := some sender.id, suspicious := false,
          earned := none, spent := none } ] ∧
    out.records.length = 2 ∧
    out.senderPoints = sender.points - a ∧
    out.recipientPoints = some (r.points + a) ∧
    (out.senderPoints - sender.points) +
      ((out.recipientPoints.getD r.points) - r.points) = 0 := by
  intro out
  have ht := jsTrunc_intCast a
  simp only [out, transferHandler] at h ⊢
  split_ifs at h ⊢ <;> simp_all

/-- Closed witness for `transfer_pairing`: scenario D of the spec,
a transfer of 30 points from user 1 (balance 100) to user 2 (balance 10). -/
theorem transfer_pairing_witness :
    let out := transferHandler ⟨1, 100, true, false⟩ (some ⟨2, 10, true, false⟩)
        2 "transfer" ((30 : ℤ) : ℚ)
    out.records =
      [ { userId := 1, type := "transfer", amount := -30,
          relatedId := some 2, createdById := 1,
          processedById := some 1, suspicious := false,
          earned := none, spent := none },
        { userId := 2, type := "transfer", amount := 30,
          relatedId := some 1, createdById := 1,
          processedById := some 1, suspicious := false,
          earned := none, spent := none } ] ∧
    out.records.length = 2 ∧
    out.senderPoints = 70 ∧
    out.recipientPoints = some 40 ∧
    (out.senderPoints - 100) + ((out.recipientPoints.getD 10) - 10) = 0 := by
  have := transfer_pairing ⟨1, 100, true, false⟩ ⟨2, 10, true, false⟩ 2 30
    (by norm_num [transferHandler, jsTrunc])
  simpa using this

/-- C7 counterexample: an unverified sender with sufficient balance and a
valid, distinct recipient is rejected with `Forbidden` (HTTP 403), not
`BadRequest` (HTTP 400) as the claim states. -/
theorem transfer_unverified_forbidden_cex :
    (transferHandler ⟨1, 100, false, false⟩ (some ⟨2, 0, true, false⟩) 2
        "transfer" 5).status = HStatus.forbidden ∧
    HStatus.forbidden ≠ HStatus.badRequest := by
  constructor
  · norm_num [transferHandler]
  · decide

/-- C7 (amended): a transfer fails with `BadRequest` on self-transfer or
insufficient balance, with `Forbidden` (not `BadRequest`) when the sender is
unverified, and with `NotFound` when the recipient is unknown; on every such
failure no rows are created and no balance changes. -/
theorem transfer_failure_statuses :
    (∀ (sender : User) (recipient : Option User) (amount : ℚ),
        (transferHandler sender recipient sender.id "transfer" amount).status =
          .badRequest ∧
        TransferUnchanged (transferHandler sender recipient sender.id "transfer" amount)
          sender recipient) ∧
    (∀ (sender : User) (rid : ℕ) (amount : ℚ), 0 < amount → rid ≠ sender.id →
        (transferHandler sender none rid "transfer" amount).status = .notFound ∧
        TransferUnchanged (transferHandler sender none rid "transfer" amount)
          sender none) ∧
    (∀ (sender r : User) (rid : ℕ) (amount : ℚ), 0 < amount → rid ≠ sender.id →
        sender.verified = false →
        (transferHandler sender (some r) rid "transfer" amount).status = .forbidden ∧
        TransferUnchanged (transferHandler sender (some r) rid "transfer" amount)
          sender (some r)) ∧
    (∀ (sender r : User) (rid : ℕ) (amount : ℚ), 0 < amount → rid ≠ sender.id →
        sender.verified = true → sender.points < jsTrunc amount →
        (transferHandler sender (some r) rid "transfer" amount).status = .badRequest ∧
        TransferUnchanged (transferHandler sender (some r) rid "transfer" amount)
          sender (some r)) := by
  refine ⟨?_, ?_, ?_, ?_⟩
  · intro sender recipient amount
    simp only [transferHandler, TransferUnchanged]
    split_ifs <;> simp_all
  · intro sender rid amount h0 hne
    simp only [transferHandler, TransferUnchanged]
    split_ifs <;> simp_all <;> linarith
  · intro sender r rid amount h0 hne hv
    simp only [transferHandler, TransferUnchanged]
    split_ifs <;> simp_all <;> linarith
  · intro sender r rid amount h0 hne hv hlt
    simp only [transferHandler, TransferUnchanged]
    split_ifs <;> simp_all <;> linarith

/-- Closed witness for `transfer_failure_statuses`: the unverified-sender
case at concrete inputs. -/
theorem transfer_failure_statuses_witness :
    (transferHandler ⟨1, 100, false, false⟩ (some ⟨2, 0, true, false⟩) 2
        "transfer" 5).status = HStatus.forbidden ∧
    TransferUnchanged
      (transferHandler ⟨1, 100, false, false⟩ (some ⟨2, 0, true, false⟩) 2
        "transfer" 5) ⟨1, 100, false, false⟩ (some ⟨2, 0, true, false⟩) :=
  transfer_failure_statuses.2.2.1 ⟨1, 100, false, false⟩ ⟨2, 0, true, false⟩ 2 5
    (by norm_num) (by norm_num) rfl

/-- The fields of an `Event` row the award and update handlers touch.
`endTime` is a timestamp; the award handler of both variants never reads
`published` or `endTime`. -/
structure EventState where
  pointsTotal : ℤ
  pointsRemain : ℤ
  pointsAwarded : ℤ
  published : Bool
  endTime : ℤ
deriving Repr, DecidableEq

/-- Event creation (`POST /events`, `src/unnamed/part_003` lines 672-709):
`points` must be a positive integer; the new event starts with
`pointsTotal = pointsRemain = points` and `pointsAwarded = 0`, unpublished. -/
def createEventHandler (points : ℤ) (endTime : ℤ) : Option EventState :=
  if points ≤ 0 then none
  else some { pointsTotal := points, pointsRemain := points, pointsAwarded := 0,
              published := false, endTime := endTime }

/-- Result of `POST /events/:id/transactions`. -/
structure AwardResult where
  status : HStatus
  event : EventState
  records : List TxRec
deriving Repr, DecidableEq

/-- Event-award handler, `src/unnamed/part_003` lines 1092-1148.  The event
row `e` is the (successful) lookup result; `isOrganizer` is the organizer
lookup for the actor; `targetUser` and `targetIsGuest` are the lookups for
the `utorid` of the single-guest branch; `guests` the RSVP list of the
all-guests branch.  `nowTime` is the clock; the handler never consults it,
nor `e.published`. -/
def eventTransactionsHandler (actorRole : Role) (actorId : ℕ) (isOrganizer : Bool)
    (e : EventState) (eventId : ℕ) (allGuests : Bool) (utorid : Option String)
    (targetUser : Option User) (targetIsGuest : Bool) (guests : List ℕ)
    (amount : ℚ) (_nowTime : ℤ) : AwardResult :=
  if amount ≤ 0 then ⟨.badRequest, e, []⟩
  else if ¬ (ORDER actorRole ≥ ORDER .manager ∨ isOrganizer) then
    ⟨.forbidden, e, []⟩
  else if allGuests then
    let needed := jsTrunc amount * guests.length
    if e.pointsRemain < needed then ⟨.badRequest, e, []⟩
    else
      ⟨.ok,
       { e with pointsRemain := e.pointsRemain - needed,
                pointsAwarded := e.pointsAwarded + needed },
       guests.map (fun g =>
         { userId := g, type := "event", amount := jsTrunc amount,
           relatedId := some eventId, createdById := actorId,
           processedById := some actorId, suspicious := false,
           earned := none, spent := none })⟩
  else
    match utorid with
    | none => ⟨.badRequest, e, []⟩
    | some _ =>
      match targetUser with
      | none => ⟨.notFound, e, []⟩
      | some u =>
        if ¬ targetIsGuest then ⟨.badRequest, e, []⟩
        else if e.pointsRemain < jsTrunc amount then ⟨.badRequest, e, []⟩
        else
          ⟨.ok,
           { e with pointsRemain := e.pointsRemain - jsTrunc amount,
                    pointsAwarded := e.pointsAwarded + jsTrunc amount },
           [ { userId := u.id, type := "event", amount := jsTrunc amount,
               relatedId := some eventId, createdById := actorId,
               processedById := some actorId, suspicious := false,
               earned := none, spent := none } ]⟩

/-- The `points` branch of `PATCH /events/:id`, `src/unnamed/part_003`
lines 923-933 (preceded by the manager/organizer gate of lines 864-866 and
the manager-only gate of line 924, both collapsing to `isManager`).
`pointsTotal` becomes `newTotal` and `pointsRemain` absorbs the delta;
`pointsAwarded` is untouched. -/
def eventPatchPointsHandler (isManager : Bool) (e : EventState) (newTotal : ℤ) :
    HStatus × EventState :=
  if ¬ isManager then (.forbidden, e)
  else if newTotal ≤ 0 then (.badRequest, e)
  else
    let delta := newTotal - e.pointsTotal
    if e.pointsRemain + delta < 0 then (.badRequest, e)
    else (.ok, { e with pointsTotal := newTotal,
                        pointsRemain := e.pointsRemain + delta })

/-- One budget-touching operation on an event, with all the request context
the handlers consult. -/
inductive EventOp where
  | award (actorRole : Role) (actorId : ℕ) (isOrganizer : Bool) (eventId : ℕ)
      (allGuests : Bool) (utorid : Option String) (targetUser : Option User)
      (targetIsGuest : Bool) (guests : List ℕ) (amount : ℚ) (nowTime : ℤ)
  | patchPoints (isManager : Bool) (newTotal : ℤ)

/-- The event state after one operation (failures leave it unchanged, as the
handlers return before the store write). -/
def applyEventOp (e : EventState) : EventOp → EventState
  | .award actorRole actorId isOrganizer eventId allGuests utorid targetUser
      targetIsGuest guests amount nowTime =>
    (eventTransactionsHandler actorRole actorId isOrganizer e eventId allGuests
      utorid targetUser targetIsGuest guests amount nowTime).event
  | .patchPoints isManager newTotal =>
    (eventPatchPointsHandler isManager e newTotal).2

/-- The event state after a sequence of operations. -/
def runEventOps (e : EventState) (ops : List EventOp) : EventState :=
  ops.foldl applyEventOp e

/-- The event budget equation: `pointsRemain + pointsAwarded = pointsTotal`. -/
def budgetInv (e : EventState) : Prop :=
  e.pointsRemain + e.pointsAwarded = e.pointsTotal

theorem applyEventOp_budgetInv (e : EventState) (op : EventOp)
    (h : budgetInv e) : budgetInv (applyEventOp e op) := by
  cases op with
  | award actorRole actorId isOrganizer eventId allGuests utorid targetUser
      targetIsGuest guests amount nowTime =>
    simp only [applyEventOp, eventTransactionsHandler]
    split_ifs <;>
      first
      | exact h
      | (cases utorid <;> cases targetUser <;>
          simp_all [budgetInv] <;> split_ifs <;> simp_all <;> omega)
  | patchPoints isManager newTotal =>
    simp only [applyEventOp, eventPatchPointsHandler]
    split_ifs <;> simp_all [budgetInv] <;> omega

/-- C2: a freshly created event satisfies
`pointsRemain + pointsAwarded = pointsTotal`; every award and points-update
operation preserves the equation (hence it holds after every operation of
every sequence); and an award whose required total (for all-guests, the
truncated per-guest amount times the guest count) exceeds `pointsRemain` is
rejected with `BadRequest` with the event untouched and no rows created. -/
theorem event_budget_conservation :
    (∀ (points endTime : ℤ) (e : EventState),
        createEventHandler points endTime = some e → budgetInv e) ∧
    (∀ (e : EventState) (ops : List EventOp),
        budgetInv e → budgetInv (runEventOps e ops)) ∧
    (∀ (actorRole : Role) (actorId : ℕ) (isOrganizer : Bool) (e : EventState)
        (eventId : ℕ) (guests : List ℕ) (amount : ℚ) (nowTime : ℤ),
        0 < amount → (ORDER actorRole ≥ ORDER .manager ∨ isOrganizer) →
        e.pointsRemain < jsTrunc amount * guests.length →
        eventTransactionsHandler actorRole actorId isOrganizer e eventId true
            none none false guests amount nowTime =
          ⟨.badRequest, e, []⟩) ∧
    (∀ (actorRole : Role) (actorId : ℕ) (isOrganizer : Bool) (e : EventState)
        (eventId : ℕ) (s : String) (u : User) (amount : ℚ) (nowTime : ℤ),
        0 < amount → (ORDER actorRole ≥ ORDER .manager ∨ isOrganizer) →
        e.pointsRemain < jsTrunc amount →
        eventTransactionsHandler actorRole actorId isOrganizer e eventId false
            (some s) (some u) true [] amount nowTime =
          ⟨.badRequest, e, []⟩) := by
  refine ⟨?_, ?_, ?_, ?_⟩
  · intro points endTime e h
    simp only [createEventHandler] at h
    split_ifs at h
    cases h
    simp [budgetInv]
  · intro e ops h
    induction ops generalizing e with
    | nil => simpa [runEventOps]
    | cons op rest ih =>
      simpa [runEventOps] using ih _ (applyEventOp_budgetInv e op h)
  · intro actorRole actorId isOrganizer e eventId guests amount nowTime
      h0 hauth hover
    simp only [eventTransactionsHandler]
    split_ifs <;> simp_all <;> linarith
  · intro actorRole actorId isOrganizer e eventId s u amount nowTime
      h0 hauth hover
    simp only [eventTransactionsHandler]
    split_ifs <;> simp_all <;> linarith

/-- Closed witness for `event_budget_conservation`: the invariant holds for
a created event and after scenario-E style awards, and an over-budget
all-guests award bounces. -/
theorem event_budget_conservation_witness :
    budgetInv { pointsTotal := 100, pointsRemain := 100, pointsAwarded := 0,
                published := false, endTime := 10 } ∧
    budgetInv (runEventOps
      { pointsTotal := 100, pointsRemain := 100, pointsAwarded := 0,
        published := true, endTime := 10 }
      [ .award .manager 9 false 1 true none none false [1, 2, 3, 4, 5] 10 0,
        .patchPoints true 120 ]) ∧
    eventTransactionsHandler .manager 9 false
        { pointsTotal := 100, pointsRemain := 40, pointsAwarded := 60,
          published := true, endTime := 10 } 1 true none none false
        [1, 2, 3, 4, 5] 10 0 =
      ⟨.badRequest,
       { pointsTotal := 100, pointsRemain := 40, pointsAwarded := 60,
         published := true, endTime := 10 }, []⟩ := by
  refine ⟨?_, ?_, ?_⟩
  · exact event_budget_conservation.1 100 10
      { pointsTotal := 100, pointsRemain := 100, pointsAwarded := 0,
        published := false, endTime := 10 } (by norm_num [createEventHandler])
  · exact event_budget_conservation.2.1 _ _ (by norm_num [budgetInv])
  · exact event_budget_conservation.2.2.1 .manager 9 false _ 1 [1, 2, 3, 4, 5]
      10 0 (by norm_num) (by simp [ORDER]) (by norm_num [jsTrunc])

/-- C8 counterexample: an organizer (regular role) awarding on an
unpublished event that has already ended (`endTime = 0 < nowTime = 10`)
succeeds; the handler returns `ok`, not `Gone`, because neither variant of
`POST /events/:id/transactions` checks `published` or `endTime`. -/
theorem event_award_no_gone_check_cex :
    (eventTransactionsHandler .regular 7 true
        { pointsTotal := 100, pointsRemain := 100, pointsAwarded := 0,
          published := false, endTime := 0 } 1 false (some "guestone")
        (some ⟨2, 0, true, false⟩) true [] 5 10).status = HStatus.ok ∧
    HStatus.ok ≠ HStatus.gone := by
  constructor
  · norm_num [eventTransactionsHandler, ORDER, jsTrunc]
  · decide

/-- C8 (amended): an event award fails with `Forbidden` when the actor is
neither a manager nor an organizer, and with `BadRequest` when the amount is
not positive; but no `Gone` status is ever produced and neither the
published flag nor the event end time is consulted: an organizer's
single-guest award succeeds on an unpublished, already-ended event whenever
the remaining checks pass. -/
theorem event_award_authorization :
    (∀ (actorRole : Role) (actorId : ℕ) (isOrganizer : Bool) (e : EventState)
        (eventId : ℕ) (allGuests : Bool) (utorid : Option String)
        (targetUser : Option User) (targetIsGuest : Bool) (guests : List ℕ)
        (amount : ℚ) (nowTime : ℤ),
        0 < amount → ¬ (ORDER actorRole ≥ ORDER .manager ∨ isOrganizer) →
        eventTransactionsHandler actorRole actorId isOrganizer e eventId
            allGuests utorid targetUser targetIsGuest guests amount nowTime =
          ⟨.forbidden, e, []⟩) ∧
    (∀ (actorRole : Role) (actorId : ℕ) (isOrganizer : Bool) (e : EventState)
        (eventId : ℕ) (allGuests : Bool) (utorid : Option String)
        (targetUser : Option User) (targetIsGuest : Bool) (guests : List ℕ)
        (amount : ℚ) (nowTime : ℤ),
        amount ≤ 0 →
        eventTransactionsHandler actorRole actorId isOrganizer e eventId
            allGuests utorid targetUser targetIsGuest guests amount nowTime =
          ⟨.badRequest, e, []⟩) ∧
    (∀ (actorRole : Role) (actorId : ℕ) (isOrganizer : Bool) (e : EventState)
        (eventId : ℕ) (allGuests : Bool) (utorid : Option String)
        (targetUser : Option User) (targetIsGuest : Bool) (guests : List ℕ)
        (amount : ℚ) (nowTime : ℤ),
        (eventTransactionsHandler actorRole actorId isOrganizer e eventId
            allGuests utorid targetUser targetIsGuest guests amount
            nowTime).status ≠ .gone) ∧
    (∀ (actorRole : Role) (actorId : ℕ) (e : EventState) (eventId : ℕ)
        (s : String) (u : User) (amount : ℚ) (nowTime : ℤ),
        0 < amount → e.published = false → e.endTime < nowTime →
        jsTrunc amount ≤ e.pointsRemain →
        (eventTransactionsHandler actorRole actorId true e eventId false
            (some s) (some u) true [] amount nowTime).status = .ok) := by
  refine ⟨?_, ?_, ?_, ?_⟩
  · intro actorRole actorId isOrganizer e eventId allGuests utorid targetUser
      targetIsGuest guests amount nowTime h0 hauth
    simp only [eventTransactionsHandler]
    split_ifs <;> simp_all <;> linarith
  · intro actorRole actorId isOrganizer e eventId allGuests utorid targetUser
      targetIsGuest guests amount nowTime h0
    simp only [eventTransactionsHandler]
    split_ifs <;> simp_all
  · intro actorRole actorId isOrganizer e eventId allGuests utorid targetUser
      targetIsGuest guests amount nowTime
    simp only [eventTransactionsHandler]
    split_ifs <;> cases utorid <;> cases targetUser <;>
      (try split_ifs) <;> (try simp_all)
  · intro actorRole actorId e eventId s u amount nowTime h0 hpub hend hbud
    simp only [eventTransactionsHandler]
    split_ifs <;> (try simp_all) <;> (try linarith)

/-- Closed witness for `event_award_authorization`: the ended-unpublished
success case at concrete inputs. -/
theorem event_award_authorization_witness :
    (eventTransactionsHandler .regular 7 true
        { pointsTotal := 100, pointsRemain := 100, pointsAwarded := 0,
          published := false, endTime := 0 } 1 false (some "guestone")
        (some ⟨2, 0, true, false⟩) true [] 5 10).status = HStatus.ok :=
  event_award_authorization.2.2.2 .regular 7
    { pointsTotal := 100, pointsRemain := 100, pointsAwarded := 0,
      published := false, endTime := 0 } 1 "guestone" ⟨2, 0, true, false⟩ 5 10
    (by norm_num) rfl (by norm_num) (by norm_num [jsTrunc])

/-- Result of `PATCH /transactions/:id/suspicious`. -/
structure ToggleResult where
  status : HStatus
  record : Option TxRec
  ownerPoints : ℤ
deriving Repr, DecidableEq

/-- Suspicious-toggle handler, `src/unnamed/part_003` lines 1425-1443
(identical logic in `createsu.js` lines 2209-2264): if the stored flag
already equals the requested one the row is returned unchanged; otherwise
the flag is flipped and the owner's balance incremented by `-amount` when
marking suspicious and `+amount` when un-marking. -/
def toggleSuspiciousHandler (t : Option TxRec) (owner : User) (newFlag : Bool) :
    ToggleResult :=
  match t with
  | none => ⟨.notFound, none, owner.points⟩
  | some t =>
    if t.suspicious = newFlag then ⟨.ok, some t, owner.points⟩
    else
      ⟨.ok, some { t with suspicious := newFlag },
       owner.points + (if newFlag then -t.amount else t.amount)⟩

/-- C6: toggling a transaction's suspicious flag to a different value moves
the owner's balance by `-amount` (marking) or `+amount` (un-marking);
marking a non-suspicious transaction and immediately un-marking it restores
the exact prior balance; and a toggle to the stored value is a no-op that
returns the current row and balance. -/
theorem suspicious_toggle_reversible :
    (∀ (t : TxRec) (owner : User) (newFlag : Bool), t.suspicious ≠ newFlag →
        toggleSuspiciousHandler (some t) owner newFlag =
          ⟨.ok, some { t with suspicious := newFlag },
           owner.points + (if newFlag then -t.amount else t.amount)⟩) ∧
    (∀ (t : TxRec) (owner : User), t.suspicious = false →
        (toggleSuspiciousHandler
            (toggleSuspiciousHandler (some t) owner true).record
            { owner with
                points := (toggleSuspiciousHandler (some t) owner true).ownerPoints }
            false).ownerPoints = owner.points) ∧
    (∀ (t : TxRec) (owner : User) (newFlag : Bool), t.suspicious = newFlag →
        toggleSuspiciousHandler (some t) owner newFlag =
          ⟨.ok, some t, owner.points⟩) := by
  refine ⟨?_, ?_, ?_⟩
  · intro t owner newFlag h
    simp [toggleSuspiciousHandler, h]
  · intro t owner h
    simp [toggleSuspiciousHandler, h]
  · intro t owner newFlag h
    simp [toggleSuspiciousHandler, h]

/-- Closed witness for `suspicious_toggle_reversible` on a concrete
purchase row of amount 160. -/
theorem suspicious_toggle_reversible_witness :
    (toggleSuspiciousHandler
        (some ⟨1, "purchase", 160, none, 9, some 9, false, none, none⟩)
        ⟨1, 200, true, false⟩ true) =
      ⟨.ok, some ⟨1, "purchase", 160, none, 9, some 9, true, none, none⟩,
       40⟩ ∧
    (toggleSuspiciousHandler
        (toggleSuspiciousHandler
          (some ⟨1, "purchase", 160, none, 9, some 9, false, none, none⟩)
          ⟨1, 200, true, false⟩ true).record
        { points := (toggleSuspiciousHandler
            (some ⟨1, "purchase", 160, none, 9, some 9, false, none, none⟩)
            ⟨1, 200, true, false⟩ true).ownerPoints, id := 1,
          verified := true, suspicious := false }
        false).ownerPoints = 200 := by
  constructor
  · have := suspicious_toggle_reversible.1
      ⟨1, "purchase", 160, none, 9, some 9, false, none, none⟩
      ⟨1, 200, true, false⟩ true (by simp)
    simpa using this
  · exact suspicious_toggle_reversible.2.1
      ⟨1, "purchase", 160, none, 9, some 9, false, none, none⟩
      ⟨1, 200, true, false⟩ rfl

/-- Promotion kind: `automatic` or `onetime` (string tags in the source). -/
inductive PromoType where
  | automatic
  | onetime
deriving Repr, DecidableEq

/-- The fields of a `Promotion` row the purchase handlers read. -/
structure Promotion where
  id : ℕ
  type : PromoType
  startTime : ℤ
  endTime : ℤ
  minSpending : Option ℚ
  rate : Option ℚ
  points : Option ℤ
deriving Repr, DecidableEq

/-- `isActivePromo` of both variants: `startTime <= now && endTime >= now`. -/
def isActivePromo (nowTime : ℤ) (p : Promotion) : Bool :=
  p.startTime ≤ nowTime && p.endTime ≥ nowTime

/-- `basePoints(spent) = Math.round(Number(spent) / 0.25)` (both variants). -/
def basePoints (spent : ℚ) : ℤ := jsRound (spent / (1/4))

/-- The flat `points` bonus of a promotion (`0` when unset). -/
def flatBonus (p : Promotion) : ℤ :=
  match p.points with
  | some k => k
  | none => 0

/-- Per-promotion bonus of `src/unnamed/part_003` lines 1212-1221: skip when
`minSpending` is set and unmet, otherwise `Math.round(base * rate)` (the
rate multiplies the BASE POINTS) plus the flat bonus. -/
def promoBonus_part003 (spent : ℚ) (base : ℤ) (p : Promotion) : ℤ :=
  match p.minSpending with
  | some m =>
    if spent < m then 0
    else (match p.rate with
          | some r => jsRound ((base : ℚ) * r)
          | none => 0) + flatBonus p
  | none =>
    (match p.rate with
     | some r => jsRound ((base : ℚ) * r)
     | none => 0) + flatBonus p

/-- Per-promotion bonus of `createsu.js` lines 1957-1966: skip when
`minSpending` is set and unmet, otherwise `Math.round(spentNum * 100 * rate)`
(the rate multiplies the raw spend scaled by 100) plus the flat bonus. -/
def promoBonus_createsu (spent : ℚ) (p : Promotion) : ℤ :=
  match p.minSpending with
  | some m =>
    if spent < m then 0
    else (match p.rate with
          | some r => jsRound (spent * 100 * r)
          | none => 0) + flatBonus p
  | none =>
    (match p.rate with
     | some r => jsRound (spent * 100 * r)
     | none => 0) + flatBonus p

/-- Earned points of the `part_003` purchase handler (lines 1209-1222):
base plus the automatic-promotion loop plus the chosen-one-time loop. -/
def earnedPoints_part003 (spent : ℚ) (automatic chosenOneTime : List Promotion) : ℤ :=
  let base := basePoints spent
  base + (automatic.map (promoBonus_part003 spent base)).sum
       + (chosenOneTime.map (promoBonus_part003 spent base)).sum

/-- Earned points of the `createsu.js` purchase handler (lines 1954-1968). -/
def earnedPoints_createsu (spent : ℚ) (automatic chosenOneTime : List Promotion) : ℤ :=
  let base := basePoints spent
  base + (automatic.map (promoBonus_createsu spent)).sum
       + (chosenOneTime.map (promoBonus_createsu spent)).sum

/-- Per-promotion bonus exactly as the claim words it: zero when
`minSpending` is set and the spend is below it, otherwise
`round(spendAmount * 100 * rate)` when a rate is set plus the flat points
bonus when set. -/
def specPromoBonus (spent : ℚ) (p : Promotion) : ℤ :=
  if p.minSpending.isSome ∧ spent < p.minSpending.getD 0 then 0
  else (match p.rate with
        | some r => jsRound (spent * 100 * r)
        | none => 0) +
       (match p.points with
        | some k => k
        | none => 0)

/-- Earned points exactly as the claim words it: `round(spend / 0.25)` plus
the bonus of every applicable promotion in the combined list. -/
def earnedPointsSpec (spent : ℚ) (applicable : List Promotion) : ℤ :=
  jsRound (spent / (1/4)) + (applicable.map (specPromoBonus spent)).sum

theorem promoBonus_createsu_eq_spec (spent : ℚ) (p : Promotion) :
    promoBonus_createsu spent p = specPromoBonus spent p := by
  cases hm : p.minSpending with
  | none => simp [promoBonus_createsu, specPromoBonus, hm, flatBonus]
  | some m =>
    by_cases hlt : spent < m <;>
      simp [promoBonus_createsu, specPromoBonus, hm, hlt, flatBonus]

/-- C3 counterexample: the `part_003` purchase handler computes the rate
bonus as `round(base * rate)`, not `round(spend * 100 * rate)`.  For a spend
of 100 and one automatic promotion of rate 0.05 it earns 420 while the
claimed formula gives 900. -/
theorem purchase_earned_formula_cex :
    earnedPoints_part003 100
        [{ id := 7, type := .automatic, startTime := 0, endTime := 1000,
           minSpending := none, rate := some (1/20), points := none }] [] = 420 ∧
    earnedPointsSpec 100
        [{ id := 7, type := .automatic, startTime := 0, endTime := 1000,
           minSpending := none, rate := some (1/20), points := none }] = 900 ∧
    earnedPoints_part003 100
        [{ id := 7, type := .automatic, startTime := 0, endTime := 1000,
           minSpending := none, rate := some (1/20), points := none }] [] ≠
      earnedPointsSpec 100
        [{ id := 7, type := .automatic, startTime := 0, endTime := 1000,
           minSpending := none, rate := some (1/20), points := none }] := by
  refine ⟨?_, ?_, ?_⟩ <;>
    norm_num [earnedPoints_part003, earnedPointsSpec, promoBonus_part003,
      specPromoBonus, basePoints, jsRound, flatBonus]

/-- C3 (amended): the `createsu.js` purchase handler computes exactly the
claimed formula — `round(spend / 0.25)` plus, for every applicable automatic
or selected one-time promotion, `round(spend * 100 * rate)` when a rate is
set plus the flat bonus when set; the `part_003` handler instead multiplies
the rate by the base points (see `purchase_earned_formula_cex`). -/
theorem purchase_earned_formula_createsu (spent : ℚ)
    (automatic chosenOneTime : List Promotion) :
    earnedPoints_createsu spent automatic chosenOneTime =
      earnedPointsSpec spent (automatic ++ chosenOneTime) := by
  simp only [earnedPoints_createsu, earnedPointsSpec, basePoints,
    List.map_append, List.sum_append]
  have hmap : ∀ l : List Promotion,
      l.map (promoBonus_createsu spent) = l.map (specPromoBonus spent) := by
    intro l
    exact List.map_congr_left fun p _ => promoBonus_createsu_eq_spec spent p
  rw [hmap, hmap]
  ring

/-- Validation loop over the request's `promotionIds` (both variants,
`part_003` lines 1193-1207 / `createsu.js` lines 1938-1952): each raw id
must be a positive integer, resolve in the map of ACTIVE ONE-TIME
promotions, and not be recorded as used; any violation rejects the whole
request (`none`), otherwise the resolved promotions are returned in order. -/
def selectOneTimePromos (activeOneTime : List Promotion) (usedIds : List ℕ) :
    List ℤ → Option (List Promotion)
  | [] => some []
  | raw :: rest =>
    if raw ≤ 0 then none
    else
      match activeOneTime.find? (fun p => (p.id : ℤ) == raw) with
      | none => none
      | some p =>
        if usedIds.contains p.id then none
        else (selectOneTimePromos activeOneTime usedIds rest).map (p :: ·)

theorem selectOneTimePromos_mem_pool (activeOneTime : List Promotion)
    (usedIds : List ℕ) (ids : List ℤ) (sel : List Promotion)
    (h : selectOneTimePromos activeOneTime usedIds ids = some sel) :
    ∀ p ∈ sel, p ∈ activeOneTime := by
  induction ids generalizing sel with
  | nil =>
    simp only [selectOneTimePromos] at h
    cases h
    simp
  | cons raw rest ih =>
    by_cases hle : raw ≤ 0
    · simp [selectOneTimePromos, hle] at h
    · cases hf : activeOneTime.find? (fun p => (p.id : ℤ) == raw) with
      | none => simp [selectOneTimePromos, hle, hf] at h
      | some q =>
        by_cases hc : q.id ∈ usedIds
        · simp [selectOneTimePromos, hle, hf, hc] at h
        · cases hrest : selectOneTimePromos activeOneTime usedIds rest with
          | none => simp [selectOneTimePromos, hle, hf, hc, hrest] at h
          | some sel0 =>
            have hsel : q :: sel0 = sel := by
              simpa [selectOneTimePromos, hle, hf, hc, hrest] using h
            intro p hp
            rcases List.mem_cons.mp (hsel ▸ hp) with hpq | hps
            · exact hpq ▸ List.mem_of_find?_eq_some hf
            · exact ih sel0 hrest p hps

theorem selectOneTimePromos_used_rejects (activeOneTime : List Promotion)
    (usedIds : List ℕ) (ids : List ℤ) (pid : ℕ)
    (hused : pid ∈ usedIds) (hin : (pid : ℤ) ∈ ids) :
    selectOneTimePromos activeOneTime usedIds ids = none := by
  induction ids with
  | nil => cases hin
  | cons raw rest ih =>
    by_cases hle : raw ≤ 0
    · simp [selectOneTimePromos, hle]
    · cases hf : activeOneTime.find? (fun p => (p.id : ℤ) == raw) with
      | none => simp [selectOneTimePromos, hle, hf]
      | some q =>
        rcases List.mem_cons.mp hin with hr | hr
        · have hq : (q.id : ℤ) = raw := by
            have := List.find?_some hf
            simpa using this
          have hqid : q.id = pid := by omega
          simp [selectOneTimePromos, hle, hf, hqid, hused]
        · by_cases hc : q.id ∈ usedIds
          · simp [selectOneTimePromos, hle, hf, hc]
          · simp [selectOneTimePromos, hle, hf, hc, ih hr]

/-- `promos.filter(isActivePromo)` of both purchase handlers. -/
def activePromos (promos : List Promotion) (nowTime : ℤ) : List Promotion :=
  promos.filter (isActivePromo nowTime)

/-- `active.filter(p => p.type === 'automatic')` of both purchase handlers. -/
def automaticPromos (promos : List Promotion) (nowTime : ℤ) : List Promotion :=
  (activePromos promos nowTime).filter (fun p => p.type == PromoType.automatic)

/-- `active.filter(p => p.type === 'onetime')` (the `oneTimeMap`) of both
purchase handlers. -/
def activeOneTimePromos (promos : List Promotion) (nowTime : ℤ) : List Promotion :=
  (activePromos promos nowTime).filter (fun p => p.type == PromoType.onetime)

/-- Result of `POST /transactions` with `type = "purchase"`: the created
row, the target user's resulting balance (`none` when the lookup failed),
the promotion ids associated with the transaction, and the promotion ids
marked used for the target user. -/
structure PurchaseResult where
  status : HStatus
  record : Option TxRec
  userPoints : Option ℤ
  associatedPromotionIds : List ℕ
  markedUsedPromotionIds : List ℕ
deriving Repr, DecidableEq

/-- Purchase handler of `src/unnamed/part_003`, lines 1158-1272.  The row
stores `amount = Math.trunc(spent)` and the earned value in `earned`; the
promotion associations cover the automatic AND chosen promotions, usage is
upserted for every one-time promotion among them, and the balance is
credited by `earned` UNCONDITIONALLY — the `suspicious` flag is stored but
never consulted. -/
def purchaseHandler_part003 (actorRole : Role) (actorId : ℕ)
    (utoridPresent : Bool) (user : Option User) (spent : Option ℚ)
    (promotionIds : List ℤ) (suspicious : Bool) (promos : List Promotion)
    (usedIds : List ℕ) (nowTime : ℤ) : PurchaseResult :=
  let fail (s : HStatus) : PurchaseResult :=
    ⟨s, none, user.map (·.points), [], []⟩
  if ORDER actorRole < ORDER .cashier then fail .forbidden
  else
    match spent with
    | none => fail .badRequest
    | some sp =>
      if ¬ utoridPresent then fail .badRequest
      else if sp < 0 then fail .badRequest
      else
        match user with
        | none => fail .notFound
        | some u =>
          let automatic := automaticPromos promos nowTime
          match selectOneTimePromos (activeOneTimePromos promos nowTime)
              usedIds promotionIds with
          | none => fail .badRequest
          | some chosen =>
            let earned := earnedPoints_part003 sp automatic chosen
            ⟨.ok,
             some { userId := u.id, type := "purchase", amount := jsTrunc sp,
                    relatedId := none, createdById := actorId,
                    processedById := some actorId, suspicious := suspicious,
                    earned := some earned, spent := none },
             some (u.points + earned),
             (automatic ++ chosen).map (·.id),
             ((automatic ++ chosen).filter
               (fun p => p.type == PromoType.onetime)).map (·.id)⟩

/-- Purchase handler of `createsu.js`, lines 1879-2024.  The effective
suspicious flag is the OR of the cashier's own `suspicious` column and the
body flag; the row stores `amount = earned` and `spent`; usage is upserted
for the chosen one-time promotions only; and the balance is credited only
when the effective flag is clear and `earned ≠ 0`. -/
def purchaseHandler_createsu (actorRole : Role) (cashier : User)
    (utoridPresent : Bool) (user : Option User) (spent : Option ℚ)
    (promotionIds : List ℤ) (bodySuspicious : Bool) (promos : List Promotion)
    (usedIds : List ℕ) (nowTime : ℤ) : PurchaseResult :=
  let fail (s : HStatus) : PurchaseResult :=
    ⟨s, none, user.map (·.points), [], []⟩
  if ORDER actorRole < ORDER .cashier then fail .forbidden
  else
    match spent with
    | none => fail .badRequest
    | some sp =>
      if ¬ utoridPresent then fail .badRequest
      else if sp < 0 then fail .badRequest
      else
        match user with
        | none => fail .notFound
        | some u =>
          let effectiveSuspicious := cashier.suspicious || bodySuspicious
          let automatic := automaticPromos promos nowTime
          match selectOneTimePromos (activeOneTimePromos promos nowTime)
              usedIds promotionIds with
          | none => fail .badRequest
          | some chosen =>
            let earned := earnedPoints_createsu sp automatic chosen
            ⟨.ok,
             some { userId := u.id, type := "purchase", amount := earned,
                    relatedId := none, createdById := cashier.id,
                    processedById := some cashier.id,
                    suspicious := effectiveSuspicious,
                    earned := none, spent := some sp },
             some (if ¬ effectiveSuspicious ∧ earned ≠ 0
                   then u.points + earned else u.points),
             (automatic ++ chosen).map (·.id),
             (chosen.filter (fun p => p.type == PromoType.onetime)).map (·.id)⟩

/-- Result of `POST /transactions` with `type = "adjustment"`. -/
structure AdjustmentResult where
  status : HStatus
  record : Option TxRec
  userPoints : Option ℤ
deriving Repr, DecidableEq

/-- Adjustment handler of `src/unnamed/part_003`, lines 1275-1329: the row
stores `Math.trunc(amount)` and the stored `suspicious` flag, but the
balance is incremented by the truncated amount UNCONDITIONALLY. -/
def adjustmentHandler_part003 (actorRole : Role) (actorId : ℕ)
    (utoridPresent : Bool) (user : Option User) (amount : Option ℚ)
    (relatedId : Option ℕ) (suspicious : Bool) : AdjustmentResult :=
  let fail (s : HStatus) : AdjustmentResult := ⟨s, none, user.map (·.points)⟩
  if ORDER actorRole < ORDER .manager then fail .forbidden
  else
    match amount with
    | none => fail .badRequest
    | some a =>
      if ¬ utoridPresent then fail .badRequest
      else
        match user with
        | none => fail .notFound
        | some u =>
          ⟨.ok,
           some { userId := u.id, type := "adjustment", amount := jsTrunc a,
                  relatedId := relatedId, createdById := actorId,
                  processedById := some actorId, suspicious := suspicious,
                  earned := none, spent := none },
           some (u.points + jsTrunc a)⟩

/-- Adjustment handler of `createsu.js`, lines 2027-2107: effective
suspicious flag as in the purchase handler; a provided `relatedId` must
resolve to a transaction of the target user (`relatedTxUserId` is the
lookup's `userId`); the balance delta is applied only when the effective
flag is clear and the truncated amount is nonzero. -/
def adjustmentHandler_createsu (actorRole : Role) (cashier : User)
    (utoridPresent : Bool) (user : Option User) (amount : Option ℚ)
    (relatedId : Option ℕ) (relatedTxUserId : Option ℕ)
    (bodySuspicious : Bool) : AdjustmentResult :=
  let fail (s : HStatus) : AdjustmentResult := ⟨s, none, user.map (·.points)⟩
  if ORDER actorRole < ORDER .manager then fail .forbidden
  else
    match amount with
    | none => fail .badRequest
    | some a =>
      if ¬ utoridPresent then fail .badRequest
      else
        match user with
        | none => fail .notFound
        | some u =>
          let effectiveSuspicious := cashier.suspicious || bodySuspicious
          let intAmount := jsTrunc a
          let okResult : AdjustmentResult :=
            ⟨.ok,
             some { userId := u.id, type := "adjustment", amount := intAmount,
                    relatedId := relatedId, createdById := cashier.id,
                    processedById := some cashier.id,
                    suspicious := effectiveSuspicious,
                    earned := none, spent := none },
             some (if ¬ effectiveSuspicious ∧ intAmount ≠ 0
                   then u.points + intAmount else u.points)⟩
          match relatedId with
          | none => okResult
          | some _ =>
            match relatedTxUserId with
            | none => fail .notFound
            | some uid => if uid ≠ u.id then fail .notFound else okResult

theorem purchaseHandler_part003_ok (actorRole : Role) (actorId : ℕ) (u : User)
    (sp : ℚ) (promotionIds : List ℤ) (suspicious : Bool)
    (promos : List Promotion) (usedIds : List ℕ) (nowTime : ℤ)
    (chosen : List Promotion)
    (hrole : ORDER .cashier ≤ ORDER actorRole) (hsp : 0 ≤ sp)
    (hsel : selectOneTimePromos (activeOneTimePromos promos nowTime) usedIds
        promotionIds = some chosen) :
    purchaseHandler_part003 actorRole actorId true (some u) (some sp)
        promotionIds suspicious promos usedIds nowTime =
      ⟨.ok,
       some { userId := u.id, type := "purchase", amount := jsTrunc sp,
              relatedId := none, createdById := actorId,
              processedById := some actorId, suspicious := suspicious,
              earned := some (earnedPoints_part003 sp
                (automaticPromos promos nowTime) chosen),
              spent := none },
       some (u.points +
         earnedPoints_part003 sp (automaticPromos promos nowTime) chosen),
       (automaticPromos promos nowTime ++ chosen).map (·.id),
       ((automaticPromos promos nowTime ++ chosen).filter
         (fun p => p.type == PromoType.onetime)).map (·.id)⟩ := by
  have h1 : ¬ ORDER actorRole < ORDER Role.cashier := not_lt.mpr hrole
  have h2 : ¬ sp < 0 := not_lt.mpr hsp
  simp [purchaseHandler_part003, h1, h2, hsel]

theorem purchaseHandler_createsu_ok (actorRole : Role) (cashier u : User)
    (sp : ℚ) (promotionIds : List ℤ) (bodySuspicious : Bool)
    (promos : List Promotion) (usedIds : List ℕ) (nowTime : ℤ)
    (chosen : List Promotion)
    (hrole : ORDER .cashier ≤ ORDER actorRole) (hsp : 0 ≤ sp)
    (hsel : selectOneTimePromos (activeOneTimePromos promos nowTime) usedIds
        promotionIds = some chosen) :
    purchaseHandler_createsu actorRole cashier true (some u) (some sp)
        promotionIds bodySuspicious promos usedIds nowTime =
      ⟨.ok,
       some { userId := u.id, type := "purchase",
              amount := earnedPoints_createsu sp
                (automaticPromos promos nowTime) chosen,
              relatedId := none, createdById := cashier.id,
              processedById := some cashier.id,
              suspicious := cashier.suspicious || bodySuspicious,
              earned := none, spent := some sp },
       some (if ¬ (cashier.suspicious || bodySuspicious) = true ∧
                earnedPoints_createsu sp (automaticPromos promos nowTime)
                  chosen ≠ 0
             then u.points +
               earnedPoints_createsu sp (automaticPromos promos nowTime) chosen
             else u.points),
       (automaticPromos promos nowTime ++ chosen).map (·.id),
       (chosen.filter (fun p => p.type == PromoType.onetime)).map (·.id)⟩ := by
  have h1 : ¬ ORDER actorRole < ORDER Role.cashier := not_lt.mpr hrole
  have h2 : ¬ sp < 0 := not_lt.mpr hsp
  simp [purchaseHandler_createsu, h1, h2, hsel]

theorem adjustmentHandler_part003_ok (actorRole : Role) (actorId : ℕ)
    (u : User) (a : ℚ) (relatedId : Option ℕ) (suspicious : Bool)
    (hrole : ORDER .manager ≤ ORDER actorRole) :
    adjustmentHandler_part003 actorRole actorId true (some u) (some a)
        relatedId suspicious =
      ⟨.ok,
       some { userId := u.id, type := "adjustment", amount := jsTrunc a,
              relatedId := relatedId, createdById := actorId,
              processedById := some actorId, suspicious := suspicious,
              earned := none, spent := none },
       some (u.points + jsTrunc a)⟩ := by
  have h1 : ¬ ORDER actorRole < ORDER Role.manager := not_lt.mpr hrole
  simp [adjustmentHandler_part003, h1]

theorem adjustmentHandler_createsu_ok (actorRole : Role) (cashier u : User)
    (a : ℚ) (bodySuspicious : Bool)
    (hrole : ORDER .manager ≤ ORDER actorRole) :
    adjustmentHandler_createsu actorRole cashier true (some u) (some a) none
        none bodySuspicious =
      ⟨.ok,
       some { userId := u.id, type := "adjustment", amount := jsTrunc a,
              relatedId := none, createdById := cashier.id,
              processedById := some cashier.id,
              suspicious := cashier.suspicious || bodySuspicious,
              earned := none, spent := none },
       some (if ¬ (cashier.suspicious || bodySuspicious) = true ∧ jsTrunc a ≠ 0
             then u.points + jsTrunc a else u.points)⟩ := by
  have h1 : ¬ ORDER actorRole < ORDER Role.manager := not_lt.mpr hrole
  simp [adjustmentHandler_createsu, h1]

/-- C4 counterexample: in `part_003`, a purchase created with
`suspicious = true` still credits the target's balance — a spend of 1 with
no promotions earns 4 points and the balance moves from 0 to 4 even though
the stored row is suspicious. -/
theorem suspicious_purchase_credited_cex :
    (purchaseHandler_part003 .cashier 9 true (some ⟨3, 0, true, false⟩)
        (some 1) [] true [] [] 0).record.map (·.suspicious) = some true ∧
    (purchaseHandler_part003 .cashier 9 true (some ⟨3, 0, true, false⟩)
        (some 1) [] true [] [] 0).userPoints = some 4 ∧
    (purchaseHandler_part003 .cashier 9 true (some ⟨3, 0, true, false⟩)
        (some 1) [] true [] [] 0).userPoints ≠ some 0 := by
  refine ⟨?_, ?_, ?_⟩ <;>
    norm_num [purchaseHandler_part003, ORDER, selectOneTimePromos,
      activeOneTimePromos, automaticPromos, activePromos,
      earnedPoints_part003, basePoints, jsRound, jsTrunc]

/-- C4 (amended): in `createsu.js`, a purchase or adjustment whose effective
suspicious flag is set leaves the target balance untouched, and when the
flag is clear the purchase credit / adjustment delta is applied — the
balance change happens only when the created transaction is not suspicious.
In `part_003`, by contrast, the purchase credit and the adjustment delta are
applied unconditionally, even when the stored row is suspicious (see
`suspicious_purchase_credited_cex`). -/
theorem suspicious_balance_gating :
    (∀ (actorRole : Role) (cashier u : User) (sp : ℚ) (promotionIds : List ℤ)
        (bodySuspicious : Bool) (promos : List Promotion) (usedIds : List ℕ)
        (nowTime : ℤ) (chosen : List Promotion),
        ORDER .cashier ≤ ORDER actorRole → 0 ≤ sp →
        selectOneTimePromos (activeOneTimePromos promos nowTime) usedIds
            promotionIds = some chosen →
        ((cashier.suspicious || bodySuspicious) = true →
          (purchaseHandler_createsu actorRole cashier true (some u) (some sp)
              promotionIds bodySuspicious promos usedIds nowTime).userPoints =
            some u.points) ∧
        ((cashier.suspicious || bodySuspicious) = false →
          (purchaseHandler_createsu actorRole cashier true (some u) (some sp)
              promotionIds bodySuspicious promos usedIds nowTime).userPoints =
            some (u.points + earnedPoints_createsu sp
              (automaticPromos promos nowTime) chosen))) ∧
    (∀ (actorRole : Role) (cashier u : User) (a : ℚ) (bodySuspicious : Bool),
        ORDER .manager ≤ ORDER actorRole →
        ((cashier.suspicious || bodySuspicious) = true →
          (adjustmentHandler_createsu actorRole cashier true (some u) (some a)
              none none bodySuspicious).userPoints = some u.points) ∧
        ((cashier.suspicious || bodySuspicious) = false →
          (adjustmentHandler_createsu actorRole cashier true (some u) (some a)
              none none bodySuspicious).userPoints =
            some (u.points + jsTrunc a))) ∧
    (∀ (actorRole : Role) (actorId : ℕ) (u : User) (sp : ℚ)
        (promotionIds : List ℤ) (suspicious : Bool) (promos : List Promotion)
        (usedIds : List ℕ) (nowTime : ℤ) (chosen : List Promotion),
        ORDER .cashier ≤ ORDER actorRole → 0 ≤ sp →
        selectOneTimePromos (activeOneTimePromos promos nowTime) usedIds
            promotionIds = some chosen →
        (purchaseHandler_part003 actorRole actorId true (some u) (some sp)
            promotionIds suspicious promos usedIds nowTime).userPoints =
          some (u.points + earnedPoints_part003 sp
            (automaticPromos promos nowTime) chosen)) ∧
    (∀ (actorRole : Role) (actorId : ℕ) (u : User) (a : ℚ)
        (relatedId : Option ℕ) (suspicious : Bool),
        ORDER .manager ≤ ORDER actorRole →
        (adjustmentHandler_part003 actorRole actorId true (some u) (some a)
            relatedId suspicious).userPoints = some (u.points + jsTrunc a)) := by
  refine ⟨?_, ?_, ?_, ?_⟩
  · intro actorRole cashier u sp promotionIds bodySuspicious promos usedIds
      nowTime chosen hrole hsp hsel
    rw [purchaseHandler_createsu_ok actorRole cashier u sp promotionIds
      bodySuspicious promos usedIds nowTime chosen hrole hsp hsel]
    constructor
    · intro hflag
      simp [hflag]
    · intro hflag
      by_cases hz : earnedPoints_createsu sp (automaticPromos promos nowTime)
          chosen = 0 <;> simp [hflag, hz]
  · intro actorRole cashier u a bodySuspicious hrole
    rw [adjustmentHandler_createsu_ok actorRole cashier u a bodySuspicious hrole]
    constructor
    · intro hflag
      simp [hflag]
    · intro hflag
      by_cases hz : jsTrunc a = 0 <;> simp [hflag, hz]
  · intro actorRole actorId u sp promotionIds suspicious promos usedIds nowTime
      chosen hrole hsp hsel
    rw [purchaseHandler_part003_ok actorRole actorId u sp promotionIds
      suspicious promos usedIds nowTime chosen hrole hsp hsel]
  · intro actorRole actorId u a relatedId suspicious hrole
    rw [adjustmentHandler_part003_ok actorRole actorId u a relatedId
      suspicious hrole]

/-- Closed witness for `suspicious_balance_gating`: a suspicious purchase in
`createsu.js` leaves the balance at 0, and the same purchase in `part_003`
credits it. -/
theorem suspicious_balance_gating_witness :
    (purchaseHandler_createsu .cashier ⟨9, 0, true, false⟩ true
        (some ⟨3, 0, true, false⟩) (some 1) [] true [] [] 0).userPoints =
      some 0 ∧
    (purchaseHandler_part003 .cashier 9 true (some ⟨3, 0, true, false⟩)
        (some 1) [] true [] [] 0).userPoints = some (0 + 4) := by
  constructor
  · exact ((suspicious_balance_gating.1 .cashier ⟨9, 0, true, false⟩
      ⟨3, 0, true, false⟩ 1 [] true [] [] 0 [] (by decide) (by norm_num)
      (by simp [selectOneTimePromos])).1 (by decide))
  · have := suspicious_balance_gating.2.2.1 .cashier 9 ⟨3, 0, true, false⟩ 1
      [] true [] [] 0 [] (by decide) (by norm_num)
      (by simp [selectOneTimePromos])
    rw [this]
    norm_num [earnedPoints_part003, automaticPromos, activePromos,
      basePoints, jsRound]

/-- C9: a selected one-time promotion whose `minSpending` exceeds the spend
contributes zero bonus (under either variant's bonus formula), yet it is
still associated with the created transaction and marked used for the user,
and once its id is recorded as used, any later purchase selecting it fails
validation. -/
theorem onetime_minspending_consumed :
    ∀ (actorRole : Role) (actorId : ℕ) (u : User) (sp : ℚ)
      (promotionIds : List ℤ) (suspicious : Bool) (promos : List Promotion)
      (usedIds : List ℕ) (nowTime : ℤ) (chosen : List Promotion)
      (p : Promotion) (m : ℚ),
      ORDER .cashier ≤ ORDER actorRole → 0 ≤ sp →
      selectOneTimePromos (activeOneTimePromos promos nowTime) usedIds
          promotionIds = some chosen →
      p ∈ chosen → p.minSpending = some m → sp < m →
      promoBonus_part003 sp (basePoints sp) p = 0 ∧
      promoBonus_createsu sp p = 0 ∧
      p.id ∈ (purchaseHandler_part003 actorRole actorId true (some u) (some sp)
          promotionIds suspicious promos usedIds nowTime).associatedPromotionIds ∧
      p.id ∈ (purchaseHandler_part003 actorRole actorId true (some u) (some sp)
          promotionIds suspicious promos usedIds nowTime).markedUsedPromotionIds ∧
      (∀ (usedIds2 : List ℕ) (ids2 : List ℤ), p.id ∈ usedIds2 →
          (p.id : ℤ) ∈ ids2 →
          selectOneTimePromos (activeOneTimePromos promos nowTime) usedIds2
            ids2 = none) := by
  intro actorRole actorId u sp promotionIds suspicious promos usedIds nowTime
    chosen p m hrole hsp hsel hp hm hlt
  have hpool := selectOneTimePromos_mem_pool _ _ _ _ hsel p hp
  have htype : p.type = PromoType.onetime := by
    have h2 := List.of_mem_filter hpool
    simpa using h2
  refine ⟨?_, ?_, ?_, ?_, ?_⟩
  · simp [promoBonus_part003, hm, hlt]
  · simp [promoBonus_createsu, hm, hlt]
  · rw [purchaseHandler_part003_ok actorRole actorId u sp promotionIds
      suspicious promos usedIds nowTime chosen hrole hsp hsel]
    exact List.mem_map.mpr ⟨p, List.mem_append_right _ hp, rfl⟩
  · rw [purchaseHandler_part003_ok actorRole actorId u sp promotionIds
      suspicious promos usedIds nowTime chosen hrole hsp hsel]
    refine List.mem_map.mpr ⟨p, List.mem_filter.mpr ⟨List.mem_append_right _ hp, ?_⟩, rfl⟩
    simp [htype]
  · intro usedIds2 ids2 hu hi
    exact selectOneTimePromos_used_rejects _ _ _ _ hu hi

/-- Closed witness for `onetime_minspending_consumed`: a one-time promotion
with `minSpending = 50` selected on a spend of 20. -/
theorem onetime_minspending_consumed_witness :
    promoBonus_part003 20 (basePoints 20)
      ⟨5, .onetime, 0, 100, some 50, none, some 10⟩ = 0 ∧
    promoBonus_createsu 20 ⟨5, .onetime, 0, 100, some 50, none, some 10⟩ = 0 ∧
    5 ∈ (purchaseHandler_part003 .cashier 9 true (some ⟨3, 0, true, false⟩)
        (some 20) [5] false [⟨5, .onetime, 0, 100, some 50, none, some 10⟩]
        [] 1).associatedPromotionIds ∧
    5 ∈ (purchaseHandler_part003 .cashier 9 true (some ⟨3, 0, true, false⟩)
        (some 20) [5] false [⟨5, .onetime, 0, 100, some 50, none, some 10⟩]
        [] 1).markedUsedPromotionIds ∧
    selectOneTimePromos
      (activeOneTimePromos [⟨5, .onetime, 0, 100, some 50, none, some 10⟩] 1)
      [5] [(5 : ℤ)] = none := by
  have h := onetime_minspending_consumed .cashier 9 ⟨3, 0, true, false⟩ 20 [5]
    false [⟨5, .onetime, 0, 100, some 50, none, some 10⟩] [] 1
    [⟨5, .onetime, 0, 100, some 50, none, some 10⟩]
    ⟨5, .onetime, 0, 100, some 50, none, some 10⟩ 50
    (by decide) (by norm_num)
    (by norm_num [selectOneTimePromos, activeOneTimePromos, activePromos,
      isActivePromo])
    (by simp) rfl (by norm_num)
  exact ⟨h.1, h.2.1, h.2.2.1, h.2.2.2.1,
    h.2.2.2.2 [5] [(5 : ℤ)] (by simp) (by simp)⟩

/-- C10: in `createsu.js`, when the creating actor's own `suspicious` column
is set, the created purchase or adjustment is recorded suspicious and the
target's balance is untouched, whatever the request body's flag says. -/
theorem actor_suspicious_forces_flag :
    (∀ (actorRole : Role) (cashier u : User) (sp : ℚ) (promotionIds : List ℤ)
        (bodySuspicious : Bool) (promos : List Promotion) (usedIds : List ℕ)
        (nowTime : ℤ) (chosen : List Promotion),
        cashier.suspicious = true →
        ORDER .cashier ≤ ORDER actorRole → 0 ≤ sp →
        selectOneTimePromos (activeOneTimePromos promos nowTime) usedIds
            promotionIds = some chosen →
        (purchaseHandler_createsu actorRole cashier true (some u) (some sp)
            promotionIds bodySuspicious promos usedIds nowTime).record.map
          (·.suspicious) = some true ∧
        (purchaseHandler_createsu actorRole cashier true (some u) (some sp)
            promotionIds bodySuspicious promos usedIds nowTime).userPoints =
          some u.points) ∧
    (∀ (actorRole : Role) (cashier u : User) (a : ℚ) (bodySuspicious : Bool),
        cashier.suspicious = true → ORDER .manager ≤ ORDER actorRole →
        (adjustmentHandler_createsu actorRole cashier true (some u) (some a)
            none none bodySuspicious).record.map (·.suspicious) = some true ∧
        (adjustmentHandler_createsu actorRole cashier true (some u) (some a)
            none none bodySuspicious).userPoints = some u.points) := by
  constructor
  · intro actorRole cashier u sp promotionIds bodySuspicious promos usedIds
      nowTime chosen hsusp hrole hsp hsel
    rw [purchaseHandler_createsu_ok actorRole cashier u sp promotionIds
      bodySuspicious promos usedIds nowTime chosen hrole hsp hsel]
    simp [hsusp]
  · intro actorRole cashier u a bodySuspicious hsusp hrole
    rw [adjustmentHandler_createsu_ok actorRole cashier u a bodySuspicious hrole]
    simp [hsusp]

/-- Closed witness for `actor_suspicious_forces_flag`: a cashier whose own
row is suspicious creates a purchase with `suspicious = false` in the body;
the row is stored suspicious and the balance stays at 7. -/
theorem actor_suspicious_forces_flag_witness :
    (purchaseHandler_createsu .cashier ⟨9, 0, true, true⟩ true
        (some ⟨3, 7, true, false⟩) (some 1) [] false [] [] 0).record.map
      (·.suspicious) = some true ∧
    (purchaseHandler_createsu .cashier ⟨9, 0, true, true⟩ true
        (some ⟨3, 7, true, false⟩) (some 1) [] false [] [] 0).userPoints =
      some 7 := by
  have h := actor_suspicious_forces_flag.1 .cashier ⟨9, 0, true, true⟩
    ⟨3, 7, true, false⟩ 1 [] false [] [] 0 [] rfl (by decide) (by norm_num)
    (by simp [selectOneTimePromos])
  exact ⟨h.1, h.2⟩

end Loyalty
